import Mathlib

/-!
Verification of the scene-lifecycle engine of `pygame-scene-manager`.

The repository contains two drivers:
* the registry-based design: `game.py` (`Game`) with scene classes under
  `scenes/` sharing the base class `scenes/scene.py` (`Scene`);
* the legacy single-file design: `scene_manager.py` (`MyGame` and its own
  `Scene` hierarchy, one fresh scene object per transition).

Both are embedded below as pure functions over explicit state.  Machine
identity of the registry scene objects is represented by `SceneId` (the
registry holds exactly one object per name, so object identity coincides
with registry-key equality).  Lifecycle calls performed by the drivers are
recorded in an explicit trace so that call-order properties can be stated.
-/

/-! ## Input model (the pygame event surface used by the code) -/

/-- Key codes read anywhere in the repository: `K_LCTRL`, `K_RCTRL`, `K_q`,
`K_SPACE`, `K_RIGHT`, `K_UP`, plus an opaque remainder. -/
inductive Key where
  | lctrl
  | rctrl
  | kq
  | kspace
  | kright
  | kup
  | other (code : Nat)
deriving DecidableEq

/-- Event types read anywhere in the repository: `pygame.QUIT`,
`pygame.KEYDOWN`, plus an opaque remainder. -/
inductive EventType where
  | equit
  | ekeydown
  | eother (code : Nat)
deriving DecidableEq

/-- A pygame event as consumed by the code: its `type`, and its `key`
attribute (only ever read when `type == KEYDOWN`). -/
structure Event where
  etype : EventType
  key : Key
deriving DecidableEq

/-- `Game.is_quit_event` (game.py lines 38-43); `MyGame.is_quit_event`
(scene_manager.py lines 132-137) is character-for-character the same:
`x_out or (ctrl and q)` where `x_out` is a window-close event and
`ctrl`/`q` come from the per-frame pressed-key snapshot. -/
def is_quit_event (event : Event) (pressed_keys : Key → Bool) : Bool :=
  let x_out := event.etype == EventType.equit
  let ctrl := pressed_keys Key.lctrl || pressed_keys Key.rctrl
  let q := pressed_keys Key.kq
  x_out || (ctrl && q)

/-- The event-drain loop shared by both drivers (game.py lines 50-57,
scene_manager.py lines 142-149 with `terminate` in place of the flag):
each drained event is either classified as a quit signal (here: the first
component records the registry driver's `running` flag being cleared) or
appended to `filtered_events` in arrival order. -/
def drain_events (events : List Event) (pressed_keys : Key → Bool)
    (running : Bool) : Bool × List Event :=
  events.foldl
    (fun acc e =>
      if is_quit_event e pressed_keys then (false, acc.2)
      else (acc.1, acc.2 ++ [e]))
    (running, [])

/-! ## Registry-based scene model (`scenes/scene.py` plus the concrete
scene subclasses registered by `Game.__init__`) -/

/-- The registry keys of `Game.__init__` (game.py lines 27-33). -/
inductive SceneId where
  | title
  | play1
  | play2
  | special
  | endscene
deriving DecidableEq

/-- The two construction-time flags of `Scene.__init__`
(scenes/scene.py lines 52-53), both defaulting to `True`. -/
structure SceneConfig where
  cleanup_on_terminate : Bool
  delay_asset_loading : Bool
deriving DecidableEq

/-- The mutable per-scene state.  `font_resident` stands for the scene's
loaded asset (`font_xl` being set versus `None`); `load_count` counts the
invocations of `load_assets` so that "invoked exactly once" claims can be
stated.  The source's `Scene.__init__` never assigns `next_scene`; it is
first assigned in `enter()`, and no code path in the embedding reads it
before `enter` has run, so the unassigned attribute is rendered as `none`. -/
structure SceneState where
  next_scene : Option SceneId
  assets_loaded : Bool
  terminated : Bool
  font_resident : Bool
  load_count : Nat
deriving DecidableEq

/-- `PlayScene1.load_assets` (play_scene1.py lines 25-29) and
`EndScene.load_assets` (end_scene.py lines 27-31): acquire the scene's
font.  The scenes whose files are absent (title, play2, special) load
their own assets the same way; none of the visible subclasses nor the base
class touches `assets_loaded` here. -/
def scene_load_assets (s : SceneState) : SceneState :=
  { s with font_resident := true, load_count := s.load_count + 1 }

/-- `Scene.__init__` (scenes/scene.py lines 33-58): store the flags,
initialise `assets_loaded` and `terminated` to `False`, and eagerly call
`load_assets` when `delay_asset_loading` is false.  Note that the eager
branch does not set `assets_loaded`. -/
def scene_init (cfg : SceneConfig) : SceneState :=
  let s : SceneState :=
    { next_scene := none, assets_loaded := false, terminated := false,
      font_resident := false, load_count := 0 }
  if !cfg.delay_asset_loading then scene_load_assets s else s

/-- `Scene.enter` (scenes/scene.py lines 77-95), not overridden by any
subclass in the repository: reset `next_scene` to self, then load assets
and set the flag when `assets_loaded` is false. -/
def scene_enter (id : SceneId) (s : SceneState) : SceneState :=
  let s1 := { s with next_scene := some id }
  if !s1.assets_loaded then
    { scene_load_assets s1 with assets_loaded := true }
  else s1

/-- `Scene.exit` (scenes/scene.py lines 97-111): a hook whose base body is
`pass`; no subclass in the repository overrides it. -/
def scene_exit (s : SceneState) : SceneState :=
  s

/-- `PlayScene1.cleanup` (play_scene1.py lines 31-36) and
`EndScene.cleanup` (end_scene.py lines 33-38): drop the font and reset
`assets_loaded` to force a reload on re-entry. -/
def scene_cleanup_concrete (s : SceneState) : SceneState :=
  { s with font_resident := false, assets_loaded := false }

/-- Modelled from the spec: the `cleanup` overrides of `TitleScene`,
`PlayScene2` and `SpecialScene`, whose source files (title_scene.py,
play_scene2.py, special_scene.py) are not under src/.  The spec states
that `cleanup()` "releases resources acquired by loadAssets and resets
assetsLoaded = false, so a future re-entry reloads from scratch", matching
the two visible overrides. -/
def scene_cleanup_modelled (s : SceneState) : SceneState :=
  { s with font_resident := false, assets_loaded := false }

/-- Dispatch of `cleanup` over the registered scenes. -/
def scene_cleanup : SceneId → SceneState → SceneState
  | SceneId.play1, s => scene_cleanup_concrete s
  | SceneId.endscene, s => scene_cleanup_concrete s
  | SceneId.title, s => scene_cleanup_modelled s
  | SceneId.play2, s => scene_cleanup_modelled s
  | SceneId.special, s => scene_cleanup_modelled s

/-- The construction flags passed by `Game.__init__` (game.py lines
27-33); omitted keyword arguments take the `Scene.__init__` defaults
(both `True`). -/
def registry_config : SceneId → SceneConfig
  | SceneId.title => { cleanup_on_terminate := true, delay_asset_loading := false }
  | SceneId.play1 => { cleanup_on_terminate := true, delay_asset_loading := true }
  | SceneId.play2 => { cleanup_on_terminate := true, delay_asset_loading := true }
  | SceneId.special => { cleanup_on_terminate := false, delay_asset_loading := false }
  | SceneId.endscene => { cleanup_on_terminate := true, delay_asset_loading := true }

/-- `Scene.terminate` (scenes/scene.py lines 113-131): invoke `cleanup`
exactly when the construction flag `cleanup_on_terminate` is set.  No call
site of this method exists in `game.py`. -/
def scene_terminate (id : SceneId) (s : SceneState) : SceneState :=
  if (registry_config id).cleanup_on_terminate then scene_cleanup id s else s

/-- `PlayScene1.process_input` (play_scene1.py lines 38-53): K_RIGHT
requests play2 and flags termination; K_UP requests special. -/
def play1_process_input (events : List Event) (_pressed_keys : Key → Bool)
    (s : SceneState) : SceneState :=
  events.foldl
    (fun s e =>
      if e.etype == EventType.ekeydown then
        if e.key == Key.kright then
          { s with next_scene := some SceneId.play2, terminated := true }
        else if e.key == Key.kup then
          { s with next_scene := some SceneId.special }
        else s
      else s)
    s

/-- `EndScene.process_input` (end_scene.py lines 40-53): K_RIGHT requests
the title scene and flags termination. -/
def endscene_process_input (events : List Event) (_pressed_keys : Key → Bool)
    (s : SceneState) : SceneState :=
  events.foldl
    (fun s e =>
      if e.etype == EventType.ekeydown then
        if e.key == Key.kright then
          { s with next_scene := some SceneId.title, terminated := true }
        else s
      else s)
    s

/-! ## The registry driver (`Game`, game.py) -/

/-- The driver state of `Game.run`: the registry (`self.scenes`), the
active-scene pointer (`none` renders Python `None`), the write-only
`previous_scene` field, and the loop flag `running`. -/
structure GameState where
  scenes : SceneId → SceneState
  active_scene : Option SceneId
  previous_scene : Option SceneId
  running : Bool

/-- One lifecycle call performed by a driver, in the order performed. -/
inductive TraceEv where
  | processInput (id : SceneId) (events : List Event)
  | update (id : SceneId)
  | render (id : SceneId)
  | exitScene (id : SceneId)
  | cleanupScene (id : SceneId)
  | enterScene (id : SceneId)
deriving DecidableEq

/-- Point update of one registry slot, rendering a method call that
mutates a single scene object. -/
def update_scene (id : SceneId) (f : SceneState → SceneState)
    (scenes : SceneId → SceneState) : SceneId → SceneState :=
  fun j => if j = id then f (scenes j) else scenes j

/-- Result of the per-frame transition check: the driver state afterwards,
the lifecycle calls it performed, and whether the interpreter raised
(`crashed = true` renders the `AttributeError` of calling a method on
`None`). -/
structure TransResult where
  g : GameState
  trace : List TraceEv
  crashed : Bool

/-- The scene-change block of `Game.run` (game.py lines 64-75):
`current_scene = active_scene; active_scene = current_scene.next_scene;`
then, when the two differ by identity, record `previous_scene`, call
`current_scene.exit()`, call `current_scene.cleanup()` when
`current_scene.terminated`, and finally `active_scene.enter()` — which
raises when `active_scene` is `None`. -/
def transition_check (cur : SceneId) (g : GameState) : TransResult :=
  let g1 := { g with active_scene := (g.scenes cur).next_scene }
  if g1.active_scene = some cur then
    { g := g1, trace := [], crashed := false }
  else
    let g2 := { g1 with previous_scene := some cur,
                        scenes := update_scene cur scene_exit g1.scenes }
    let cleaned :=
      if (g2.scenes cur).terminated then
        (update_scene cur (scene_cleanup cur) g2.scenes, [TraceEv.cleanupScene cur])
      else (g2.scenes, [])
    match g1.active_scene with
    | none =>
      { g := { g2 with scenes := cleaned.1 },
        trace := TraceEv.exitScene cur :: cleaned.2,
        crashed := true }
    | some nid =>
      { g := { g2 with scenes := update_scene nid (scene_enter nid) cleaned.1 },
        trace := TraceEv.exitScene cur :: (cleaned.2 ++ [TraceEv.enterScene nid]),
        crashed := false }

/-- The combined effect of `active_scene.process_input(filtered, pressed)`
and `active_scene.update()` on the registry, abstracted so that driver
theorems quantify over arbitrary scene behaviour. -/
abbrev StepFun :=
  SceneId → List Event → (Key → Bool) → (SceneId → SceneState) → (SceneId → SceneState)

/-- The step function realised by the scene classes present under src/:
`PlayScene1` and `EndScene` process input as written there and have `pass`
for `update`.  The input handlers of the remaining scenes are in the
absent source files; driver theorems below quantify over every `StepFun`,
and concrete evaluations only ever activate `play1` or `endscene`. -/
def src_step : StepFun := fun id events pressed scenes =>
  match id with
  | SceneId.play1 =>
      update_scene SceneId.play1 (play1_process_input events pressed) scenes
  | SceneId.endscene =>
      update_scene SceneId.endscene (endscene_process_input events pressed) scenes
  | _ => scenes

/-- Result of one body of the `while running` loop of `Game.run`. -/
structure FrameResult where
  g : GameState
  trace : List TraceEv
  crashed : Bool

/-- One full frame of `Game.run` (game.py lines 47-78): snapshot the keys,
drain and filter the events (clearing `running` on any quit signal), call
`process_input`, `update` and `render` on the active scene, then run the
transition check.  When `active_scene` is `None` the very first method
call raises. -/
def game_frame (step : StepFun) (events : List Event) (pressed : Key → Bool)
    (g : GameState) : FrameResult :=
  match g.active_scene with
  | none => { g := g, trace := [], crashed := true }
  | some cur =>
    let d := drain_events events pressed g.running
    let g1 := { g with running := d.1, scenes := step cur d.2 pressed g.scenes }
    let t := transition_check cur g1
    { g := t.g,
      trace := TraceEv.processInput cur d.2 :: TraceEv.update cur ::
        TraceEv.render cur :: t.trace,
      crashed := t.crashed }

/-- Result of running the loop of `Game.run` for a bounded number of
frames. -/
structure LoopResult where
  g : GameState
  trace : List TraceEv
  crashed : Bool

/-- The `while running` loop of `Game.run`, fuelled: `k` indexes the input
streams (events and pressed-key snapshots per frame).  The loop guard is
exactly `running`; a crashed frame aborts the run. -/
def game_loop (step : StepFun) (ev : Nat → List Event) (pr : Nat → Key → Bool) :
    Nat → Nat → GameState → LoopResult
  | 0, _, g => { g := g, trace := [], crashed := false }
  | fuel + 1, k, g =>
    if g.running then
      let f := game_frame step (ev k) (pr k) g
      if f.crashed then { g := f.g, trace := f.trace, crashed := true }
      else
        let rest := game_loop step ev pr fuel (k + 1) f.g
        { g := rest.g, trace := f.trace ++ rest.trace, crashed := rest.crashed }
    else { g := g, trace := [], crashed := false }

/-- `Game.__init__` followed by the `running = True` preamble of
`Game.run` (game.py lines 16-35, 46): construct the five registry scenes
with their flags, activate `title` and call its `enter()`. -/
def game_init : GameState :=
  let scenes0 : SceneId → SceneState := fun id => scene_init (registry_config id)
  { scenes := update_scene SceneId.title (scene_enter SceneId.title) scenes0,
    active_scene := some SceneId.title,
    previous_scene := none,
    running := true }

/-! ## The legacy driver (`MyGame` and its scene classes, scene_manager.py) -/

/-- The three legacy scene classes of scene_manager.py. -/
inductive LKind where
  | ltitle
  | lplay
  | lend
deriving DecidableEq

/-- The value of a legacy scene's `next_scene` field: the scene itself
(`Scene.__init__`, scene_manager.py line 32), a freshly constructed scene
of some class (the `process_input` bodies construct `PlayScene()` etc.),
or `None` (`terminate`). -/
inductive LNext where
  | self
  | fresh (k : LKind)
  | absent
deriving DecidableEq

/-- A legacy scene object: its class and its `next_scene` field. -/
structure LScene where
  kind : LKind
  nxt : LNext
deriving DecidableEq

/-- Legacy `Scene.__init__` (scene_manager.py lines 31-32):
`self.next_scene = self`. -/
def lscene_new (k : LKind) : LScene :=
  { kind := k, nxt := LNext.self }

/-- The successor class constructed on space-bar input: title → play →
end → title (scene_manager.py lines 55-59, 82-85, 105-109). -/
def lsuccessor : LKind → LKind
  | LKind.ltitle => LKind.lplay
  | LKind.lplay => LKind.lend
  | LKind.lend => LKind.ltitle

/-- Legacy `Scene.terminate` (scene_manager.py lines 42-43), identical in
every legacy subclass: `self.next_scene = None`. -/
def lscene_terminate (s : LScene) : LScene :=
  { s with nxt := LNext.absent }

/-- The legacy `process_input` bodies: on every KEYDOWN of K_SPACE, point
`next_scene` at a freshly constructed successor scene. -/
def lscene_process_input (events : List Event) (s : LScene) : LScene :=
  events.foldl
    (fun s e =>
      if e.etype == EventType.ekeydown then
        if e.key == Key.kspace then { s with nxt := LNext.fresh (lsuccessor s.kind) }
        else s
      else s)
    s

/-- The legacy event drain (scene_manager.py lines 142-149): a quit signal
calls `self.active_scene.terminate()`; anything else is appended to
`filtered_events` in arrival order. -/
def ldrain (events : List Event) (pressed : Key → Bool) (s : LScene) :
    LScene × List Event :=
  events.foldl
    (fun acc e =>
      if is_quit_event e pressed then (lscene_terminate acc.1, acc.2)
      else (acc.1, acc.2 ++ [e]))
    (s, [])

/-- `self.active_scene = self.active_scene.next_scene` (scene_manager.py
line 155) resolved against the object model: keeping the same object,
constructing a fresh one, or becoming `None`. -/
def lresolve (s : LScene) : Option LScene :=
  match s.nxt with
  | LNext.self => some s
  | LNext.fresh k => some (lscene_new k)
  | LNext.absent => none

/-- One body of the `while self.active_scene != None` loop of `MyGame.run`
(scene_manager.py lines 139-159): drain events (terminating on quit
signals), process input, update, render, then reassign the active
scene. -/
def legacy_frame (events : List Event) (pressed : Key → Bool) (s : LScene) :
    Option LScene :=
  let d := ldrain events pressed s
  lresolve (lscene_process_input d.2 d.1)

/-- The legacy loop, fuelled; returns the final active scene and the index
one past the last frame executed, so "no further frame runs" is the index
of the result. -/
def legacy_loop (ev : Nat → List Event) (pr : Nat → Key → Bool) :
    Nat → Nat → Option LScene → Option LScene × Nat
  | 0, k, a => (a, k)
  | fuel + 1, k, a =>
    match a with
    | none => (none, k)
    | some s => legacy_loop ev pr fuel (k + 1) (legacy_frame (ev k) (pr k) s)

/-! ## Concrete states used by closed evaluations -/

/-- A pressed-key snapshot with nothing held. -/
def no_keys : Key → Bool := fun _ => false

/-- A pressed-key snapshot with left Ctrl and Q held. -/
def ctrl_q_keys : Key → Bool := fun k =>
  match k with
  | Key.lctrl => true
  | Key.kq => true
  | _ => false

/-- The driver state after the game has transitioned to `play1` and
entered it (`play1` is the active scene and its `enter()` has run). -/
def play1_active_state : GameState :=
  { game_init with
    active_scene := some SceneId.play1,
    scenes := update_scene SceneId.play1 (scene_enter SceneId.play1) game_init.scenes }

/-- A single window-close event. -/
def quit_events : List Event :=
  [{ etype := EventType.equit, key := Key.other 0 }]

/-- A window-close event followed by an ordinary key-down event. -/
def mixed_events : List Event :=
  [{ etype := EventType.equit, key := Key.other 0 },
   { etype := EventType.ekeydown, key := Key.kspace }]

/-- A driver state in which the active `special` scene (constructed with
`cleanup_on_terminate=False`) has flagged itself terminated and requested
a transition to `play1`. -/
def special_terminated_state : GameState :=
  { scenes := fun id =>
      if id = SceneId.special then
        { next_scene := some SceneId.play1, assets_loaded := true,
          terminated := true, font_resident := true, load_count := 1 }
      else scene_init (registry_config id),
    active_scene := some SceneId.special,
    previous_scene := none,
    running := true }

/-- A driver state in which the active `play1` scene has nulled its own
successor (`next_scene = None`). -/
def play1_absent_successor_state : GameState :=
  { scenes := fun id =>
      if id = SceneId.play1 then
        { next_scene := none, assets_loaded := true, terminated := false,
          font_resident := true, load_count := 1 }
      else scene_init (registry_config id),
    active_scene := some SceneId.play1,
    previous_scene := none,
    running := true }

/-- A driver state in which the active `play1` scene has flagged itself
terminated and requested a transition to `play2`. -/
def play1_terminated_state : GameState :=
  { scenes := fun id =>
      if id = SceneId.play1 then
        { next_scene := some SceneId.play2, assets_loaded := true,
          terminated := true, font_resident := true, load_count := 1 }
      else scene_init (registry_config id),
    active_scene := some SceneId.play1,
    previous_scene := none,
    running := true }

/-! ## Helper lemmas about the drivers -/

/-- Characterisation of the event drain: the loop flag survives iff no
drained event is a quit signal, and the forwarded list is the
order-preserving filter of the non-quit events. -/
theorem drain_events_eq (events : List Event) (pressed_keys : Key → Bool)
    (running : Bool) :
    drain_events events pressed_keys running =
      (running && !(events.any (fun e => is_quit_event e pressed_keys)),
       events.filter (fun e => !is_quit_event e pressed_keys)) := by
  have aux : ∀ (l : List Event) (r : Bool) (acc : List Event),
      l.foldl
        (fun acc e =>
          if is_quit_event e pressed_keys then (false, acc.2)
          else (acc.1, acc.2 ++ [e]))
        (r, acc) =
      (r && !(l.any (fun e => is_quit_event e pressed_keys)),
       acc ++ l.filter (fun e => !is_quit_event e pressed_keys)) := by
    intro l
    induction l with
    | nil => intro r acc; simp
    | cons e es ih =>
      intro r acc
      cases h : is_quit_event e pressed_keys <;> simp [h, ih]
  simpa [drain_events] using aux events running []

/-- The transition check never touches the loop flag. -/
theorem transition_check_running (cur : SceneId) (g : GameState) :
    (transition_check cur g).g.running = g.running := by
  unfold transition_check
  cases hn : (g.scenes cur).next_scene with
  | none => simp [hn]
  | some nid =>
    by_cases h : nid = cur
    · subst h; simp [hn]
    · simp [hn, h]

/-- After a frame with a live active scene, the loop flag is the old flag
weakened by the presence of a quit signal among that frame's events. -/
theorem game_frame_running (step : StepFun) (events : List Event)
    (pressed : Key → Bool) (g : GameState) (cur : SceneId)
    (h : g.active_scene = some cur) :
    (game_frame step events pressed g).g.running =
      (g.running && !(events.any (fun e => is_quit_event e pressed))) := by
  simp [game_frame, h, transition_check_running, drain_events_eq]

/-- A loop started with the flag already cleared performs no frame. -/
theorem game_loop_halted (step : StepFun) (ev : Nat → List Event)
    (pr : Nat → Key → Bool) (fuel k : Nat) (g : GameState)
    (h : g.running = false) :
    game_loop step ev pr fuel k g = { g := g, trace := [], crashed := false } := by
  cases fuel <;> simp [game_loop, h]

/-! ## Claim theorems -/

/-- C1: the claim states that for a scene constructed with
`cleanup_on_terminate=False` the driver never causes `cleanup()` to run,
because the driver supposedly goes through `terminate()`.  The code
contradicts this: `Game.run` never calls `terminate()` and instead calls
`cleanup()` directly whenever the outgoing scene is flagged `terminated`.
Evaluated at a transition away from the `special` scene
(`cleanup_on_terminate=False`, `terminated=True`, successor `play1`): the
flag is false, yet the driver's transition emits the `cleanup` call and
the scene's assets are released; `terminate()` itself, had it been called
as claimed, would have been a no-op on this scene. -/
theorem C1_driver_cleans_up_despite_optout :
    (registry_config SceneId.special).cleanup_on_terminate = false ∧
    (transition_check SceneId.special special_terminated_state).trace =
      [TraceEv.exitScene SceneId.special, TraceEv.cleanupScene SceneId.special,
       TraceEv.enterScene SceneId.play1] ∧
    ((transition_check SceneId.special special_terminated_state).g.scenes
        SceneId.special).assets_loaded = false ∧
    scene_terminate SceneId.special
        (special_terminated_state.scenes SceneId.special) =
      special_terminated_state.scenes SceneId.special := by
  decide

/-- C2: the claim states that an eagerly loading scene
(`delay_asset_loading=False`) runs `load_assets` exactly once, at
construction, and not again on the first `enter()`.  The code contradicts
this: `Scene.__init__` calls `load_assets()` without setting
`assets_loaded`, so the first `enter()` finds the flag false and loads a
second time.  Evaluated on the `title` scene (eager per `Game.__init__`):
one load at construction with the flag still false, two loads after the
first `enter`.  The lazy half of the claim does hold, as the `play1`
conjuncts show: no load at construction, one load on first `enter`. -/
theorem C2_eager_scene_double_load :
    (registry_config SceneId.title).delay_asset_loading = false ∧
    (scene_init (registry_config SceneId.title)).load_count = 1 ∧
    (scene_init (registry_config SceneId.title)).assets_loaded = false ∧
    (scene_enter SceneId.title (scene_init (registry_config SceneId.title))).load_count = 2 ∧
    (registry_config SceneId.play1).delay_asset_loading = true ∧
    (scene_init (registry_config SceneId.play1)).load_count = 0 ∧
    (scene_enter SceneId.play1 (scene_init (registry_config SceneId.play1))).load_count = 1 := by
  decide

/-- C5: immediately after `Scene.enter` returns, `assets_loaded` is true
and `next_scene` points back at the scene itself, clearing any stale
transition request. -/
theorem C5_enter_postcondition (id : SceneId) (s : SceneState) :
    (scene_enter id s).assets_loaded = true ∧
    (scene_enter id s).next_scene = some id := by
  unfold scene_enter
  cases h : s.assets_loaded <;> simp [h, scene_load_assets]

/-- C9: for every registered scene, `cleanup()` resets `assets_loaded` to
false (and drops the loaded asset), so a subsequent re-entry runs
`load_assets` again, as witnessed by the bumped invocation count. -/
theorem C9_cleanup_resets_assets (id : SceneId) (s : SceneState) :
    (scene_cleanup id s).assets_loaded = false ∧
    (scene_cleanup id s).font_resident = false ∧
    (scene_enter id (scene_cleanup id s)).load_count =
      (scene_cleanup id s).load_count + 1 := by
  cases id <;>
    simp [scene_cleanup, scene_cleanup_concrete, scene_cleanup_modelled,
      scene_enter, scene_load_assets]

/-- C6: on every transition to a different, non-absent successor, the
driver performs exactly the sequence `outgoing.exit()`, then
`outgoing.cleanup()` if and only if `outgoing.terminated` (so cleanup,
when it happens, happens exactly once, immediately after `exit`), sets
the active scene to the successor, and calls the successor's `enter()`
last, without crashing. -/
theorem C6_transition_call_sequence (g : GameState) (cur nid : SceneId)
    (h1 : (g.scenes cur).next_scene = some nid) (h2 : nid ≠ cur) :
    (transition_check cur g).trace =
      TraceEv.exitScene cur ::
        ((if (g.scenes cur).terminated then [TraceEv.cleanupScene cur] else []) ++
          [TraceEv.enterScene nid]) ∧
    (transition_check cur g).g.active_scene = some nid ∧
    (transition_check cur g).crashed = false := by
  by_cases ht : (g.scenes cur).terminated = true <;>
    simp [transition_check, h1, h2, ht, update_scene, scene_exit]

/-- Closed instance of `C6_transition_call_sequence`: the terminated
`play1` scene transitioning to `play2`. -/
theorem C6_transition_call_sequence_witness :
    (transition_check SceneId.play1 play1_terminated_state).trace =
      TraceEv.exitScene SceneId.play1 ::
        ((if (play1_terminated_state.scenes SceneId.play1).terminated then
            [TraceEv.cleanupScene SceneId.play1] else []) ++
          [TraceEv.enterScene SceneId.play2]) ∧
    (transition_check SceneId.play1 play1_terminated_state).g.active_scene =
      some SceneId.play2 ∧
    (transition_check SceneId.play1 play1_terminated_state).crashed = false :=
  C6_transition_call_sequence play1_terminated_state SceneId.play1 SceneId.play2
    (by decide) (by decide)

/-- C7: the event list forwarded to `process_input` is the
order-preserving filter of the drained events: it is a sublist of the
arrival order, contains no event classified as a quit signal, contains
every drained non-quit event, and is exactly the list the frame hands to
the active scene's `process_input`. -/
theorem C7_quit_signals_filtered (events : List Event) (pressed : Key → Bool) :
    (∀ r : Bool, (drain_events events pressed r).2 =
      events.filter (fun e => !is_quit_event e pressed)) ∧
    (events.filter (fun e => !is_quit_event e pressed)).Sublist events ∧
    (∀ e ∈ events.filter (fun e => !is_quit_event e pressed),
      is_quit_event e pressed = false) ∧
    (∀ e ∈ events, is_quit_event e pressed = false →
      e ∈ events.filter (fun e => !is_quit_event e pressed)) ∧
    (∀ (step : StepFun) (g : GameState) (cur : SceneId),
      g.active_scene = some cur →
      (game_frame step events pressed g).trace.head? =
        some (TraceEv.processInput cur
          (events.filter (fun e => !is_quit_event e pressed)))) := by
  refine ⟨fun r => by rw [drain_events_eq], List.filter_sublist _, ?_, ?_, ?_⟩
  · intro e he
    simpa using (List.mem_filter.mp he).2
  · intro e he hq
    exact List.mem_filter.mpr ⟨he, by simp [hq]⟩
  · intro step g cur h
    simp [game_frame, h, drain_events_eq]

/-- Closed instance of `C7_quit_signals_filtered`: a window-close event
followed by a space key-down, drained in the active `play1` scene. -/
theorem C7_quit_signals_filtered_witness :
    (game_frame src_step mixed_events no_keys play1_active_state).trace.head? =
      some (TraceEv.processInput SceneId.play1
        (mixed_events.filter (fun e => !is_quit_event e no_keys))) :=
  (C7_quit_signals_filtered mixed_events no_keys).2.2.2.2 src_step
    play1_active_state SceneId.play1 rfl

/-- C8: when, after `process_input` and `update`, the active scene's
`next_scene` is the active scene itself, the frame performs no `exit`,
`cleanup` or `enter` call, leaves the active scene unchanged, leaves the
registry exactly as the scene step left it, and does not crash. -/
theorem C8_self_successor_no_lifecycle_calls (step : StepFun)
    (events : List Event) (pressed : Key → Bool) (g : GameState) (cur : SceneId)
    (h1 : g.active_scene = some cur)
    (h2 : ((step cur (drain_events events pressed g.running).2 pressed g.scenes)
        cur).next_scene = some cur) :
    (game_frame step events pressed g).trace =
      [TraceEv.processInput cur (drain_events events pressed g.running).2,
       TraceEv.update cur, TraceEv.render cur] ∧
    (game_frame step events pressed g).g.active_scene = some cur ∧
    (game_frame step events pressed g).g.scenes =
      step cur (drain_events events pressed g.running).2 pressed g.scenes ∧
    (game_frame step events pressed g).crashed = false := by
  simp [game_frame, h1, transition_check, h2]

/-- Closed instance of `C8_self_successor_no_lifecycle_calls`: the entered
`play1` scene receiving no events keeps `next_scene = self`. -/
theorem C8_self_successor_no_lifecycle_calls_witness :
    (game_frame src_step [] no_keys play1_active_state).trace =
      [TraceEv.processInput SceneId.play1
        (drain_events [] no_keys play1_active_state.running).2,
       TraceEv.update SceneId.play1, TraceEv.render SceneId.play1] ∧
    (game_frame src_step [] no_keys play1_active_state).g.active_scene =
      some SceneId.play1 ∧
    (game_frame src_step [] no_keys play1_active_state).g.scenes =
      src_step SceneId.play1 (drain_events [] no_keys play1_active_state.running).2
        no_keys play1_active_state.scenes ∧
    (game_frame src_step [] no_keys play1_active_state).crashed = false :=
  C8_self_successor_no_lifecycle_calls src_step [] no_keys play1_active_state
    SceneId.play1 (by decide) (by decide)

/-- C10: whenever the pressed-key snapshot holds a Ctrl key together with
Q, `is_quit_event` classifies every event as a quit signal regardless of
its type, so the drain forwards nothing and `process_input` receives the
empty list that frame. -/
theorem C10_ctrl_q_blankets_all_events (pressed : Key → Bool)
    (hctrl : pressed Key.lctrl = true ∨ pressed Key.rctrl = true)
    (hq : pressed Key.kq = true) :
    (∀ e : Event, is_quit_event e pressed = true) ∧
    (∀ (events : List Event) (r : Bool), (drain_events events pressed r).2 = []) ∧
    (∀ (step : StepFun) (events : List Event) (g : GameState) (cur : SceneId),
      g.active_scene = some cur →
      (game_frame step events pressed g).trace.head? =
        some (TraceEv.processInput cur [])) := by
  have hall : ∀ e : Event, is_quit_event e pressed = true := by
    intro e
    unfold is_quit_event
    rcases hctrl with h | h <;> simp [h, hq]
  have hnil : ∀ events : List Event,
      events.filter (fun e => !is_quit_event e pressed) = [] := by
    intro events
    refine List.filter_eq_nil_iff.mpr ?_
    intro e _
    simp [hall e]
  refine ⟨hall, ?_, ?_⟩
  · intro events r
    rw [drain_events_eq]
    exact hnil events
  · intro step events g cur h
    simp [game_frame, h, drain_events_eq, hnil events]

/-- Closed instance of `C10_ctrl_q_blankets_all_events`: with left Ctrl
and Q held, the mixed event list reaches `play1.process_input` as the
empty list. -/
theorem C10_ctrl_q_blankets_all_events_witness :
    (game_frame src_step mixed_events ctrl_q_keys play1_active_state).trace.head? =
      some (TraceEv.processInput SceneId.play1 []) :=
  (C10_ctrl_q_blankets_all_events ctrl_q_keys (Or.inl rfl) rfl).2.2 src_step
    mixed_events play1_active_state SceneId.play1 rfl

/-- C3 counterexample: the claim states that when a quit signal is
observed while draining events, the loop exits with no further `update`
or `render` calls on the active scene.  Evaluated on a frame of the
active `play1` scene whose event queue holds a window-close event: the
quit signal is observed during the drain, yet the driver still calls
`process_input`, `update` and `render` on the scene in that same frame;
only then is the loop flag found cleared. -/
theorem C3_update_and_render_follow_quit :
    (quit_events.any (fun e => is_quit_event e no_keys)) = true ∧
    (game_frame src_step quit_events no_keys play1_active_state).trace =
      [TraceEv.processInput SceneId.play1 [], TraceEv.update SceneId.play1,
       TraceEv.render SceneId.play1] ∧
    (game_frame src_step quit_events no_keys play1_active_state).g.running = false := by
  decide

/-- C3 amended: when a quit signal is observed while draining a frame's
events, the driver finishes that frame — `update` and `render` still run
once on the active scene — and the loop then exits: the run consists of
exactly that one frame, with no later `update`/`render` calls. -/
theorem C3_loop_exits_after_finishing_quit_frame (step : StepFun)
    (ev : Nat → List Event) (pr : Nat → Key → Bool) (fuel k : Nat)
    (g : GameState) (cur : SceneId)
    (h1 : g.running = true) (h2 : g.active_scene = some cur)
    (h3 : (ev k).any (fun e => is_quit_event e (pr k)) = true)
    (h4 : (game_frame step (ev k) (pr k) g).crashed = false) :
    game_loop step ev pr (fuel + 1) k g =
      { g := (game_frame step (ev k) (pr k) g).g,
        trace := (game_frame step (ev k) (pr k) g).trace,
        crashed := false } ∧
    TraceEv.update cur ∈ (game_frame step (ev k) (pr k) g).trace ∧
    TraceEv.render cur ∈ (game_frame step (ev k) (pr k) g).trace := by
  have hrun : (game_frame step (ev k) (pr k) g).g.running = false := by
    rw [game_frame_running step (ev k) (pr k) g cur h2, h1, h3]
    rfl
  have hloop := game_loop_halted step ev pr fuel (k + 1)
    (game_frame step (ev k) (pr k) g).g hrun
  refine ⟨?_, ?_, ?_⟩
  · simp [game_loop, h1, h4, hloop]
  · simp [game_frame, h2]
  · simp [game_frame, h2]

/-- Closed instance of `C3_loop_exits_after_finishing_quit_frame`: three
frames of fuel, a window-close event in the first frame, active `play1`;
the run is exactly the first frame. -/
theorem C3_loop_exits_after_finishing_quit_frame_witness :
    game_loop src_step (fun _ => quit_events) (fun _ => no_keys) 3 0
        play1_active_state =
      { g := (game_frame src_step quit_events no_keys play1_active_state).g,
        trace := (game_frame src_step quit_events no_keys play1_active_state).trace,
        crashed := false } ∧
    TraceEv.update SceneId.play1 ∈
      (game_frame src_step quit_events no_keys play1_active_state).trace ∧
    TraceEv.render SceneId.play1 ∈
      (game_frame src_step quit_events no_keys play1_active_state).trace :=
  C3_loop_exits_after_finishing_quit_frame src_step (fun _ => quit_events)
    (fun _ => no_keys) 2 0 play1_active_state SceneId.play1 rfl rfl
    (by decide) (by decide)

/-- C4 counterexample: the claim states that when the active scene's
`next_scene` is absent at the transition check, the application terminates
after that frame.  Evaluated on the registry driver (`Game.run`) with the
active `play1` scene holding `next_scene = None`: the frame crashes (the
driver calls `enter()` on `None`) during the transition check — `exit()`
has run but the frame is never completed — and the loop flag `running` is
still true, so the loop's own termination condition was never met; the
process dies by the unhandled error, not by finishing the frame and
leaving the loop. -/
theorem C4_registry_crashes_on_absent_successor :
    (play1_absent_successor_state.scenes SceneId.play1).next_scene = none ∧
    (game_frame src_step [] no_keys play1_absent_successor_state).crashed = true ∧
    (game_frame src_step [] no_keys play1_absent_successor_state).g.running = true ∧
    (game_frame src_step [] no_keys play1_absent_successor_state).g.active_scene
      = none ∧
    (game_frame src_step [] no_keys play1_absent_successor_state).trace =
      [TraceEv.processInput SceneId.play1 [], TraceEv.update SceneId.play1,
       TraceEv.render SceneId.play1, TraceEv.exitScene SceneId.play1] := by
  decide

/-- C4 amended: an absent successor drives program exit only in the legacy
driver, whose loop condition is `active_scene != None`: there the loop
stops after exactly the frame that nulled the successor.  In the registry
driver (`Game.run`) the absent case is unhandled: whenever the scene step
leaves `next_scene = None`, the frame crashes at the `enter()` call on the
absent scene, with the loop flag left exactly as the event drain set
it. -/
theorem C4_absent_successor_two_drivers :
    (∀ (ev : Nat → List Event) (pr : Nat → Key → Bool) (fuel k : Nat) (s : LScene),
      legacy_frame (ev k) (pr k) s = none →
      legacy_loop ev pr (fuel + 1) k (some s) = (none, k + 1)) ∧
    (∀ (step : StepFun) (events : List Event) (pressed : Key → Bool)
        (g : GameState) (cur : SceneId),
      g.active_scene = some cur →
      ((step cur (drain_events events pressed g.running).2 pressed g.scenes)
          cur).next_scene = none →
      (game_frame step events pressed g).crashed = true ∧
      (game_frame step events pressed g).g.running =
        (drain_events events pressed g.running).1) := by
  constructor
  · intro ev pr fuel k s h
    have : legacy_loop ev pr (fuel + 1) k (some s) =
        legacy_loop ev pr fuel (k + 1) none := by
      simp [legacy_loop, h]
    rw [this]
    cases fuel <;> simp [legacy_loop]
  · intro step events pressed g cur h1 h2
    constructor
    · simp [game_frame, h1, transition_check, h2]
    · rw [game_frame_running step events pressed g cur h1, drain_events_eq]

/-- Closed instance of `C4_absent_successor_two_drivers`: a legacy title
scene whose `terminate()` has nulled its successor ends the legacy loop
after one frame; the registry driver crashes on the same situation. -/
theorem C4_absent_successor_two_drivers_witness :
    legacy_loop (fun _ => []) (fun _ => no_keys) 5 0
        (some { kind := LKind.ltitle, nxt := LNext.absent }) = (none, 1) ∧
    (game_frame src_step [] no_keys play1_absent_successor_state).crashed = true :=
  ⟨C4_absent_successor_two_drivers.1 (fun _ => []) (fun _ => no_keys) 4 0
      { kind := LKind.ltitle, nxt := LNext.absent } (by decide),
   (C4_absent_successor_two_drivers.2 src_step [] no_keys
      play1_absent_successor_state SceneId.play1 (by decide) (by decide)).1⟩
